import Mathlib

/-!
Verification development for the undici-retry library.

The definitions below are a shallow embedding of the retry decision engine
(src/lib/undiciRetry.ts, current version), the default delay resolver and the
Retry-After header parsing (defaultRetryResolver source), and the Either result
shape (src/lib/either.ts).

Host-environment effects are made explicit parameters:
  - Date parsing (new Date(s).getTime()) is a parameter parseDate : String → Option Int
    returning the epoch instant in milliseconds, or none for an invalid date.
  - Date.now() is an explicit Int argument (per-attempt in the engine).
  - Math.random() is an explicit rational argument (per-attempt in the engine);
    facts about it assume 0 ≤ rand < 1.
JavaScript numbers are modelled as exact rationals (ℚ); attempt counters as ℕ.
-/

namespace UndiciRetry

/-- Either type from either.ts: a record with optional error and result fields.
The TypeScript type uses never-typed fields to forbid populating both; the
embedding keeps both fields optional so that exclusivity is a provable
property of the code rather than a typing artifact. -/
structure EitherVal (α β : Type) where
  error : Option α := none
  result : Option β := none
  deriving DecidableEq, Repr

/-- Response headers the retry logic reads: content-type and retry-after. -/
structure Headers where
  contentType : Option String := none
  retryAfter : Option String := none
  deriving DecidableEq, Repr

/-- Response body handle: the raw text, plus whether JSON.parse succeeds on it. -/
structure RespBody where
  text : String := ""
  jsonOk : Bool := true
  deriving DecidableEq, Repr

/-- An undici response: status code, headers and a consumable body. -/
structure Response where
  statusCode : Nat
  headers : Headers := {}
  body : RespBody := {}
  deriving DecidableEq, Repr

/-- JavaScript truthiness of an optional string: present and non-empty. -/
def strTruthy (o : Option String) : Bool :=
  (o.getD "") ≠ ""

/-- Matches the DIGITS_ONLY_REGEX pattern from the sources, evaluated on the
character list of the string. -/
def isDigitsOnly (s : String) : Bool :=
  s.data ≠ [] && s.data.all Char.isDigit

/-- Value of Number.parseInt(s, 10) on an all-digits string. -/
def digitsVal (s : String) : Nat :=
  s.data.foldl (fun acc c => acc * 10 + (c.toNat - 48)) 0

/-- Helper for content-type matching: whether the second character list is an
initial segment of the first. -/
def firstCharsMatch : List Char → List Char → Bool
  | _, [] => true
  | [], _ :: _ => false
  | c :: cs, d :: ds => c == d && firstCharsMatch cs ds

/-- Embedding of ct.startsWith(pat) for header strings. -/
def strStartsWith (s pat : String) : Bool :=
  firstCharsMatch s.data pat.data

/-- Embedding of parseRetryAfterHeader from the resolver source (lines 21-50).
parseDate models the host new Date(s).getTime() (none when invalid),
now models Date.now(). -/
def parseRetryAfterHeader (parseDate : String → Option Int) (now : Int)
    (retryAfter : String) : EitherVal String ℚ :=
  if retryAfter = "" then
    { error := some "No Retry-After header provided" }
  else if isDigitsOnly retryAfter then
    let seconds : Nat := digitsVal retryAfter
    -- defensive isNaN / negative check in the source cannot fire for a digits-only string
    if (seconds : Int) < 0 then
      { error := some "Invalid Retry-After seconds value" }
    else
      { result := some ((seconds : ℚ) * 1000) }
  else
    match parseDate retryAfter with
    | some t =>
      let delay : Int := t - now
      if delay < 0 then
        { error := some "Retry-After date is in the past" }
      else
        { result := some (delay : ℚ) }
    | none => { error := some "Unknown Retry-After format" }

/-- Options accepted by DefaultRetryResolver (all optional). -/
structure DefaultRetryResolverOptions where
  baseDelay : Option ℚ := none
  maxDelay : Option ℚ := none
  maxJitter : Option ℚ := none
  exponentialBackoff : Option Bool := none
  respectRetryAfter : Option Bool := none

/-- Resolved configuration of a DefaultRetryResolver instance. -/
structure DefaultRetryResolver where
  baseDelay : ℚ
  maxDelay : ℚ
  maxJitter : ℚ
  exponentialBackoff : Bool
  respectRetryAfter : Bool

/-- Constructor of DefaultRetryResolver: applies the documented defaults
(baseDelay 100, maxDelay 60000, maxJitter 100, exponential and
respect-Retry-After on). -/
def DefaultRetryResolver.make (options : DefaultRetryResolverOptions) :
    DefaultRetryResolver where
  baseDelay := options.baseDelay.getD 100
  maxDelay := options.maxDelay.getD 60000
  maxJitter := options.maxJitter.getD 100
  exponentialBackoff := options.exponentialBackoff.getD true
  respectRetryAfter := options.respectRetryAfter.getD true

/-- Embedding of DefaultRetryResolver.isRetryableStatusCode:
indexOf(statusCode) !== -1. -/
def isRetryableStatusCode (statusCode : Nat) (retryableStatusCodes : List Nat) : Bool :=
  retryableStatusCodes.contains statusCode

/-- Embedding of DefaultRetryResolver.calculateBackoffDelay (resolver source
lines 215-231): exponential or linear base delay, plus Math.random()*maxJitter
when maxJitter > 0, clamped by maxDelay afterwards. The attempt number is an
integer so that the exponent attemptNumber - 1 may be negative. -/
def DefaultRetryResolver.calculateBackoffDelay (r : DefaultRetryResolver)
    (rand : ℚ) (attemptNumber : Int) : ℚ :=
  let delay : ℚ :=
    if r.exponentialBackoff then r.baseDelay * (2 : ℚ) ^ (attemptNumber - 1)
    else r.baseDelay * (attemptNumber : ℚ)
  let delay : ℚ := if r.maxJitter > 0 then delay + rand * r.maxJitter else delay
  min delay r.maxDelay

/-- Embedding of the closure produced by createDefaultRetryResolver (resolver
source lines 270-325). Returns some d for a delay of d milliseconds, including
the sentinel some (-1) for abort; the closure never returns undefined. -/
def createDefaultRetryResolver (options : DefaultRetryResolverOptions)
    (parseDate : String → Option Int) (now : Int) (rand : ℚ)
    (response : Response) (attemptNumber : Int)
    (retryableResponseCodes : List Nat) : Option ℚ :=
  let resolver := DefaultRetryResolver.make options
  if ¬ isRetryableStatusCode response.statusCode retryableResponseCodes then
    some (-1)
  else
    let shouldRespectRetryAfter : Bool :=
      resolver.respectRetryAfter
        && (response.statusCode == 429 || response.statusCode == 503)
        && strTruthy response.headers.retryAfter
    let fromHeader : Option (Option ℚ) :=
      if shouldRespectRetryAfter then
        let retryAfterDelay :=
          parseRetryAfterHeader parseDate now (response.headers.retryAfter.getD "")
        match retryAfterDelay.result with
        | some d => if d > resolver.maxDelay then some (some (-1)) else some (some d)
        | none => none   -- parse failed: fall through to the backoff computation
      else none
    match fromHeader with
    | some out => out
    | none => some (resolver.calculateBackoffDelay rand attemptNumber)

/-- Error kinds observed by the engine catch block: a name (matched against the
undici timeout error names), the flag probed by isUnprocessableResponseError,
and the payload fields the engine reads or writes. -/
structure JsErr where
  name : String
  message : String := ""
  isUnprocessable : Bool := false
  rawBody : Option String := none
  requestLabel : Option String := none
  isInternalRequestError : Bool := false
  deriving DecidableEq, Repr

/-- Names of the undici timeout error classes gated by retryOnTimeout. -/
def TIMEOUT_ERRORS : List String := ["BodyTimeoutError", "HeadersTimeoutError"]

/-- Materialized body of a response: blob, parsed JSON (kept as its raw text),
plain text, or the unconsumed stream handle of the stream variant. -/
inductive BodyValue where
  | blob (text : String)
  | jsonVal (text : String)
  | text (s : String)
  | stream (b : RespBody)
  deriving DecidableEq, Repr

/-- Embedding of resolveBody (engine source lines 409-438): blob when requested,
otherwise JSON when the content type says so (throwing SyntaxError from
body.json, or UnprocessableResponseError under safeParseJson), otherwise text. -/
def resolveBody (response : Response) (requestLabel : String)
    (blobBody : Bool) (safeParseJson : Bool) : Except JsErr BodyValue :=
  if blobBody then .ok (.blob response.body.text)
  else
    let isJson : Bool :=
      match response.headers.contentType with
      | some ct => strStartsWith ct "application/json"
      | none => false
    if isJson then
      if ¬ safeParseJson then
        if response.body.jsonOk then .ok (.jsonVal response.body.text)
        else .error { name := "SyntaxError" }
      else
        if response.body.jsonOk then .ok (.jsonVal response.body.text)
        else .error
          { name := "UnprocessableResponseError"
            message := "Error while parsing HTTP JSON response"
            isUnprocessable := true
            rawBody := some response.body.text
            requestLabel := some requestLabel }
    else .ok (.text response.body.text)

/-- Retry configuration of the engine (current RetryConfig type). -/
structure RetryConfig where
  maxAttempts : Nat
  delayResolver : Option (Response → Nat → List Nat → Option ℚ) := none
  statusCodesToRetry : Option (List Nat) := none
  retryOnTimeout : Bool

/-- Per-request parameters (RequestParams type); all fields optional. -/
structure RequestParams where
  blobBody : Option Bool := none
  safeParseJson : Option Bool := none
  requestLabel : Option String := none
  throwOnInternalError : Option Bool := none

/-- Default retryable status codes from the engine source. -/
def DEFAULT_RETRYABLE_STATUS_CODES : List Nat := [408, 425, 429, 500, 502, 503, 504]

/-- DEFAULT_RETRY_CONFIG from the engine source. -/
def DEFAULT_RETRY_CONFIG : RetryConfig where
  maxAttempts := 3
  statusCodesToRetry := some DEFAULT_RETRYABLE_STATUS_CODES
  retryOnTimeout := false

/-- NO_RETRY_CONFIG from the engine source. -/
def NO_RETRY_CONFIG : RetryConfig where
  maxAttempts := 1
  statusCodesToRetry := some []
  retryOnTimeout := false

/-- DEFAULT_REQUEST_PARAMS from the engine source. -/
def DEFAULT_REQUEST_PARAMS : RequestParams where
  blobBody := some false
  safeParseJson := some false

/-- JavaScript truthiness of an optional boolean. -/
def truthy (o : Option Bool) : Bool := o.getD false

/-- Host-environment inputs of one call, indexed by attempt number where the
engine may observe them at different attempts: Date.now(), Math.random() and
date parsing for the default resolver. -/
structure Env where
  parseDate : String → Option Int
  now : Nat → Int
  rand : Nat → ℚ

/-- Module-level cached default delay resolver (engine source line 249),
applied to the host environment of the given attempt. -/
def defaultDelayResolverFn (env : Env) : Response → Nat → List Nat → Option ℚ :=
  fun response attemptNumber codes =>
    createDefaultRetryResolver {} env.parseDate (env.now attemptNumber)
      (env.rand attemptNumber) response (attemptNumber : Int) codes

/-- The statusCodesToRetry || DEFAULT_RETRYABLE_STATUS_CODES fallback. -/
def effectiveCodes (cfg : RetryConfig) : List Nat :=
  cfg.statusCodesToRetry.getD DEFAULT_RETRYABLE_STATUS_CODES

/-- The delayResolver || DEFAULT_DELAY_RESOLVER fallback. -/
def effectiveResolver (cfg : RetryConfig) (env : Env) :
    Response → Nat → List Nat → Option ℚ :=
  cfg.delayResolver.getD (defaultDelayResolverFn env)

/-- Outcome of one transport invocation: a response, or a thrown error. -/
inductive AttemptOutcome where
  | response (r : Response)
  | failure (e : JsErr)

/-- Observable side effects of the engine, tagged by attempt number. -/
inductive Event where
  | requestIssued (n : Nat)
  | resolverConsulted (n : Nat)
  | bodyDumped (n : Nat)
  | slept (n : Nat) (delay : ℚ)
  deriving DecidableEq, Repr

/-- Value placed in a populated arm of the returned Either (RequestResult type).
Success results carry no requestLabel; error results do. -/
structure RequestResult where
  body : BodyValue
  headers : Headers
  statusCode : Nat
  requestLabel : Option String := none
  deriving DecidableEq, Repr

/-- Contents of the error arm: an HTTP-level failure result, or the error
object returned when throwOnInternalError is off. -/
inductive ErrArm where
  | http (r : RequestResult)
  | internal (e : JsErr)
  deriving DecidableEq, Repr

/-- Exceptions the engine can raise: the typed UndiciRetryRequestError wrapper,
or an UnprocessableResponseError rethrown as-is. -/
inductive Thrown where
  | undiciRetryRequestError (cause : JsErr) (message : String)
      (requestLabel : Option String)
  | reraised (e : JsErr)
  deriving DecidableEq, Repr

/-- How one call ends: a returned Either value, a raised exception, or the
fuel bound of the embedding being hit (shown unreachable separately). -/
inductive EngineReturn where
  | ret (v : EitherVal ErrArm RequestResult)
  | thrown (t : Thrown)
  | outOfFuel
  deriving DecidableEq, Repr

/-- Embedding of the catch block (engine source lines 329-357): decides whether
the error is terminal; on a terminal error either returns the error object
(tagging it unless it is an UnprocessableResponseError) or throws. Returns
none when the loop should continue with another attempt. -/
def catchClause (cfg : RetryConfig) (params : RequestParams) (attemptsSoFar : Nat)
    (err : JsErr) : Option EngineReturn :=
  if cfg.maxAttempts ≤ attemptsSoFar ∨
      (cfg.retryOnTimeout = false ∧ TIMEOUT_ERRORS.contains err.name = true) then
    some (
      if ¬ truthy params.throwOnInternalError then
        let e :=
          if ¬ err.isUnprocessable then
            { err with requestLabel := params.requestLabel, isInternalRequestError := true }
          else err
        .ret { error := some (.internal e) }
      else if err.isUnprocessable then
        .thrown (.reraised err)
      else
        .thrown (.undiciRetryRequestError err err.message params.requestLabel))
  else none

/-- Result of one iteration of the while loop: a terminal outcome, or the
instruction to loop again; in both cases with the side-effect events of the
iteration in order. -/
inductive IterOut where
  | done (out : EngineReturn) (events : List Event)
  | next (events : List Event)
  deriving Repr

/-- Embedding of the body of the while loop in sendWithRetryInternal (engine
source lines 272-358) at attempt number n: issue the request, classify the
response, or route any thrown error through the catch block. -/
def iterate (cfg : RetryConfig) (params : RequestParams)
    (handleSuccessBody : Response → Except JsErr BodyValue)
    (env : Env) (transport : Nat → AttemptOutcome) (n : Nat) : IterOut :=
  let codes := effectiveCodes cfg
  let caught : JsErr → List Event → IterOut := fun err evs =>
    match catchClause cfg params n err with
    | some out => .done out evs
    | none => .next evs
  match transport n with
  | .failure err => caught err [.requestIssued n]
  | .response resp =>
    if resp.statusCode < 400 then
      match handleSuccessBody resp with
      | .ok body =>
        let r : RequestResult :=
          { body := body, headers := resp.headers, statusCode := resp.statusCode }
        .done (.ret { result := some r }) [.requestIssued n]
      | .error err => caught err [.requestIssued n]
    else if codes.contains resp.statusCode = false ∨ cfg.maxAttempts ≤ n then
      match resolveBody resp (params.requestLabel.getD "N/A") false false with
      | .ok body =>
        let r : RequestResult :=
          { body := body, headers := resp.headers, statusCode := resp.statusCode,
            requestLabel := params.requestLabel }
        .done (.ret { error := some (.http r) }) [.requestIssued n]
      | .error err => caught err [.requestIssued n]
    else
      let delay := (effectiveResolver cfg env resp n codes).getD 0
      if delay = -1 then
        match resolveBody resp (params.requestLabel.getD "N/A") false false with
        | .ok body =>
          let r : RequestResult :=
            { body := body, headers := resp.headers, statusCode := resp.statusCode,
              requestLabel := params.requestLabel }
          .done (.ret { error := some (.http r) })
            [.requestIssued n, .resolverConsulted n]
        | .error err => caught err [.requestIssued n, .resolverConsulted n]
      else
        .next ([.requestIssued n, .resolverConsulted n, .bodyDumped n] ++
          if 0 < delay then [.slept n delay] else [])

/-- Aggregate view of one call: how it ended, how many times the transport was
invoked, and the ordered event trace. -/
structure RunResult where
  outcome : EngineReturn
  calls : Nat
  trace : List Event
  deriving DecidableEq, Repr

/-- The while loop of sendWithRetryInternal, driven by fuel; each iteration
invokes the transport exactly once. -/
def sendLoop (cfg : RetryConfig) (params : RequestParams)
    (handleSuccessBody : Response → Except JsErr BodyValue)
    (env : Env) (transport : Nat → AttemptOutcome) :
    Nat → Nat → RunResult
  | _, 0 => { outcome := .outOfFuel, calls := 0, trace := [] }
  | a, fuel + 1 =>
    match iterate cfg params handleSuccessBody env transport (a + 1) with
    | .done out evs => { outcome := out, calls := 1, trace := evs }
    | .next evs =>
      let rest := sendLoop cfg params handleSuccessBody env transport (a + 1) fuel
      { outcome := rest.outcome, calls := rest.calls + 1, trace := evs ++ rest.trace }

/-- Embedding of sendWithRetryInternal: run the loop from zero attempts. The
fuel maxAttempts is enough, as proved below (the loop is forced terminal once
the attempt counter reaches maxAttempts). -/
def sendWithRetryInternal (cfg : RetryConfig) (params : RequestParams)
    (handleSuccessBody : Response → Except JsErr BodyValue)
    (env : Env) (transport : Nat → AttemptOutcome) : RunResult :=
  sendLoop cfg params handleSuccessBody env transport 0 cfg.maxAttempts

/-- Success-body collaborator passed by sendWithRetry: resolveBody with the
caller's blobBody / safeParseJson settings. -/
def successBodyHandler (params : RequestParams) : Response → Except JsErr BodyValue :=
  fun r => resolveBody r (params.requestLabel.getD "N/A")
    (params.blobBody.getD false) (params.safeParseJson.getD false)

/-- Embedding of sendWithRetry: success bodies are materialized by resolveBody
with the caller's blobBody / safeParseJson settings. -/
def sendWithRetry (cfg : RetryConfig) (params : RequestParams) (env : Env)
    (transport : Nat → AttemptOutcome) : RunResult :=
  sendWithRetryInternal cfg params (successBodyHandler params) env transport

/-- Embedding of sendWithRetryReturnStream: the success body is returned as the
unconsumed stream handle. -/
def sendWithRetryReturnStream (cfg : RetryConfig) (params : RequestParams)
    (env : Env) (transport : Nat → AttemptOutcome) : RunResult :=
  sendWithRetryInternal cfg params (fun r => .ok (.stream r.body)) env transport

/-- Exactly one of the two Either fields is populated. -/
def exclusiveEither {α β : Type} (v : EitherVal α β) : Prop :=
  (v.error = none ∧ v.result ≠ none) ∨ (v.error ≠ none ∧ v.result = none)

/-- Retryable-but-not-yet-exhausted outcome of one attempt: an error response
(status at least 400) whose status code is in the retry set with the effective
delay resolver not aborting, or a transport failure not gated by
retryOnTimeout. -/
def retryableAt (cfg : RetryConfig) (env : Env) (n : Nat) : AttemptOutcome → Prop
  | .response r =>
      400 ≤ r.statusCode ∧ (effectiveCodes cfg).contains r.statusCode = true ∧
      (effectiveResolver cfg env r n (effectiveCodes cfg)).getD 0 ≠ -1
  | .failure e => ¬ (cfg.retryOnTimeout = false ∧ TIMEOUT_ERRORS.contains e.name = true)

/-- Retryability as worded in the budget-invariant claim: any response whose
status code is in the retry set with the resolver not aborting (no requirement
that the response be an error response), or an ungated transport failure. -/
def claimedRetryableAt (cfg : RetryConfig) (env : Env) (n : Nat) : AttemptOutcome → Prop
  | .response r =>
      (effectiveCodes cfg).contains r.statusCode = true ∧
      (effectiveResolver cfg env r n (effectiveCodes cfg)).getD 0 ≠ -1
  | .failure e => ¬ (cfg.retryOnTimeout = false ∧ TIMEOUT_ERRORS.contains e.name = true)

/-- Attempt number an event belongs to. -/
def Event.attempt : Event → Nat
  | .requestIssued n => n
  | .resolverConsulted n => n
  | .bodyDumped n => n
  | .slept n _ => n

/-- Position of an event inside its attempt: the engine issues the request,
then consults the resolver, then dumps the body, then sleeps. -/
def Event.phase : Event → Nat
  | .requestIssued _ => 0
  | .resolverConsulted _ => 1
  | .bodyDumped _ => 2
  | .slept _ _ => 3

/-- Strict temporal order on events: earlier attempt, or same attempt and
earlier phase. -/
def Event.before (e f : Event) : Prop :=
  e.attempt < f.attempt ∨ (e.attempt = f.attempt ∧ e.phase < f.phase)

/-- Events emitted by a single loop iteration at attempt n: all tagged with n
and internally ordered. -/
def attemptBlock (n : Nat) (evs : List Event) : Prop :=
  (∀ e ∈ evs, Event.attempt e = n) ∧ evs.Pairwise Event.before

end UndiciRetry

namespace UndiciRetry

-- Concrete scenario inputs used by evaluation lemmas, witnesses and
-- counterexamples below.

/-- Host environment with no parseable dates, clock at 0 and Math.random 0. -/
def env0 : Env := { parseDate := fun _ => none, now := fun _ => 0, rand := fun _ => 0 }

/-- Transport giving a 500 on the first attempt and a 200 afterwards. -/
def transport0 : Nat → AttemptOutcome := fun n =>
  if n = 1 then .response { statusCode := 500, body := { text := "boom" } }
  else .response { statusCode := 200, body := { text := "ok" } }

/-- The success value of transport0's second response. -/
def okResult : RequestResult :=
  { body := .text "ok", headers := {}, statusCode := 200 }

/-- Two attempts, retrying 500s. -/
def cfg0 : RetryConfig :=
  { maxAttempts := 2, statusCodesToRetry := some [500], retryOnTimeout := false }

/-- A 429 response carrying a Retry-After header of 30 seconds. -/
def resp429hdr : Response :=
  { statusCode := 429, headers := { retryAfter := some "30" } }

/-- A 200 response claiming JSON content whose body JSON.parse rejects. -/
def resp200badjson : Response :=
  { statusCode := 200, headers := { contentType := some "application/json" },
    body := { text := "zzz", jsonOk := false } }

/-- Transport always producing the unparsable-JSON 200 response. -/
def transportBad : Nat → AttemptOutcome := fun _ => .response resp200badjson

/-- Request parameters with safeParseJson on and throwing internal errors. -/
def paramsSafeThrow : RequestParams :=
  { safeParseJson := some true, throwOnInternalError := some true }

/-- Request parameters that throw internal errors. -/
def paramsThrow : RequestParams := { throwOnInternalError := some true }

/-- The UnprocessableResponseError raised for resp200badjson under
safeParseJson with no request label. -/
def unprocErr : JsErr :=
  { name := "UnprocessableResponseError",
    message := "Error while parsing HTTP JSON response",
    isUnprocessable := true, rawBody := some "zzz", requestLabel := some "N/A" }

/-- Two attempts with an empty retry set. -/
def cfgBad : RetryConfig :=
  { maxAttempts := 2, statusCodesToRetry := some [], retryOnTimeout := false }

/-- A non-timeout transport error. -/
def errSocket : JsErr := { name := "SocketError" }

/-- Transport always failing with the socket error. -/
def transportErr : Nat → AttemptOutcome := fun _ => .failure errSocket

/-- A single attempt with an empty retry set. -/
def cfg1 : RetryConfig :=
  { maxAttempts := 1, statusCodesToRetry := some [], retryOnTimeout := false }

/-- Two attempts, with 200 in the retry set. -/
def cfg200 : RetryConfig :=
  { maxAttempts := 2, statusCodesToRetry := some [200], retryOnTimeout := false }

/-- Transport always producing a plain 200 text response. -/
def transport200 : Nat → AttemptOutcome := fun _ =>
  .response { statusCode := 200, body := { text := "ok" } }

end UndiciRetry

namespace UndiciRetry

/-- Once the attempt counter has reached maxAttempts, the catch block is
always terminal. -/
theorem catchClause_isSome_of_le (cfg : RetryConfig) (params : RequestParams)
    (n : Nat) (err : JsErr) (hn : cfg.maxAttempts ≤ n) :
    ∃ out, catchClause cfg params n err = some out := by
  simp [catchClause, hn]

/-- A terminal catch outcome is a returned value or a raised error, and any
returned Either it produces has exactly the error arm populated. -/
theorem catchClause_out_shape (cfg : RetryConfig) (params : RequestParams)
    (n : Nat) (err : JsErr) (out : EngineReturn)
    (h : catchClause cfg params n err = some out) :
    out ≠ .outOfFuel ∧ ∀ v, out = .ret v → exclusiveEither v := by
  unfold catchClause at h
  split at h
  · rw [Option.some_inj] at h
    subst h
    split
    · refine ⟨by simp, fun v hv => ?_⟩
      rw [EngineReturn.ret.injEq] at hv
      subst hv
      exact Or.inr ⟨by simp, rfl⟩
    · split <;> exact ⟨by simp, fun v hv => by cases hv⟩
  · cases h

/-- The catch block lets the loop continue exactly when the budget is not
exhausted and the error is not a timeout gated by retryOnTimeout. -/
theorem catchClause_eq_none_iff (cfg : RetryConfig) (params : RequestParams)
    (n : Nat) (err : JsErr) :
    catchClause cfg params n err = none ↔
      ¬ (cfg.maxAttempts ≤ n ∨
        (cfg.retryOnTimeout = false ∧ TIMEOUT_ERRORS.contains err.name = true)) := by
  unfold catchClause
  split <;> rename_i hcond
  · exact iff_of_false (by simp) (not_not_intro hcond)
  · exact iff_of_true rfl hcond

/-- Loop-body evaluation on a transport failure: the error goes through the
catch block, with the request-issue event as the only side effect. -/
theorem iterate_failure (cfg : RetryConfig) (params : RequestParams)
    (hsb : Response → Except JsErr BodyValue) (env : Env)
    (transport : Nat → AttemptOutcome) (n : Nat) (e : JsErr)
    (ht : transport n = .failure e) :
    iterate cfg params hsb env transport n =
      (match catchClause cfg params n e with
        | some out => .done out [.requestIssued n]
        | none => .next [.requestIssued n]) := by
  simp only [iterate, ht]

/-- Loop-body evaluation on a response with status below 400 whose body
materializes: the success arm is returned on this attempt. -/
theorem iterate_success (cfg : RetryConfig) (params : RequestParams)
    (hsb : Response → Except JsErr BodyValue) (env : Env)
    (transport : Nat → AttemptOutcome) (n : Nat) (r : Response) (b : BodyValue)
    (ht : transport n = .response r) (h4 : r.statusCode < 400)
    (hb : hsb r = .ok b) :
    iterate cfg params hsb env transport n =
      .done (.ret { result := some { body := b, headers := r.headers, statusCode := r.statusCode } }) [.requestIssued n] := by
  simp only [iterate, ht, if_pos h4, hb]

/-- Loop-body evaluation on a response with status below 400 whose body
materialization throws: the thrown error goes through the catch block. -/
theorem iterate_success_throw (cfg : RetryConfig) (params : RequestParams)
    (hsb : Response → Except JsErr BodyValue) (env : Env)
    (transport : Nat → AttemptOutcome) (n : Nat) (r : Response) (e : JsErr)
    (ht : transport n = .response r) (h4 : r.statusCode < 400)
    (hb : hsb r = .error e) :
    iterate cfg params hsb env transport n =
      (match catchClause cfg params n e with
        | some out => .done out [.requestIssued n]
        | none => .next [.requestIssued n]) := by
  simp only [iterate, ht, if_pos h4, hb]

/-- Loop-body evaluation on an error response that is terminal because its
status is not retryable or the budget is exhausted, and whose error body
materializes: the Failure arm is returned with body, headers and status. -/
theorem iterate_terminal_http (cfg : RetryConfig) (params : RequestParams)
    (hsb : Response → Except JsErr BodyValue) (env : Env)
    (transport : Nat → AttemptOutcome) (n : Nat) (r : Response) (b : BodyValue)
    (ht : transport n = .response r) (h4 : ¬ r.statusCode < 400)
    (hcond : (effectiveCodes cfg).contains r.statusCode = false ∨ cfg.maxAttempts ≤ n)
    (hrb : resolveBody r (params.requestLabel.getD "N/A") false false = .ok b) :
    iterate cfg params hsb env transport n =
      .done (.ret { error := some (.http { body := b, headers := r.headers, statusCode := r.statusCode, requestLabel := params.requestLabel }) }) [.requestIssued n] := by
  simp only [iterate, ht, if_neg h4, if_pos hcond, hrb]

/-- Variant of the terminal error-response case where materializing the error
body itself throws: the error goes through the catch block. -/
theorem iterate_terminal_http_throw (cfg : RetryConfig) (params : RequestParams)
    (hsb : Response → Except JsErr BodyValue) (env : Env)
    (transport : Nat → AttemptOutcome) (n : Nat) (r : Response) (e : JsErr)
    (ht : transport n = .response r) (h4 : ¬ r.statusCode < 400)
    (hcond : (effectiveCodes cfg).contains r.statusCode = false ∨ cfg.maxAttempts ≤ n)
    (hrb : resolveBody r (params.requestLabel.getD "N/A") false false = .error e) :
    iterate cfg params hsb env transport n =
      (match catchClause cfg params n e with
        | some out => .done out [.requestIssued n]
        | none => .next [.requestIssued n]) := by
  simp only [iterate, ht, if_neg h4, if_pos hcond, hrb]

/-- Loop-body evaluation on a retryable error response when the resolver does
not abort: the body is dumped, the sleep happens for a positive delay, and the
loop continues. -/
theorem iterate_retryable (cfg : RetryConfig) (params : RequestParams)
    (hsb : Response → Except JsErr BodyValue) (env : Env)
    (transport : Nat → AttemptOutcome) (n : Nat) (r : Response)
    (ht : transport n = .response r) (h4 : ¬ r.statusCode < 400)
    (hin : (effectiveCodes cfg).contains r.statusCode = true)
    (hlt : n < cfg.maxAttempts)
    (hd : (effectiveResolver cfg env r n (effectiveCodes cfg)).getD 0 ≠ -1) :
    iterate cfg params hsb env transport n =
      .next ([.requestIssued n, .resolverConsulted n, .bodyDumped n] ++
        if 0 < (effectiveResolver cfg env r n (effectiveCodes cfg)).getD 0 then
          [.slept n ((effectiveResolver cfg env r n (effectiveCodes cfg)).getD 0)]
        else []) := by
  have hnotcond : ¬ ((effectiveCodes cfg).contains r.statusCode = false ∨
      cfg.maxAttempts ≤ n) := by
    rintro (hc | hc)
    · rw [hin] at hc; cases hc
    · omega
  simp only [iterate, ht, if_neg h4, if_neg hnotcond, if_neg hd]

/-- Loop-body evaluation on a retryable error response when the resolver
returns the -1 sentinel and the error body materializes: the Failure arm is
returned and no dump or sleep happens. -/
theorem iterate_abort (cfg : RetryConfig) (params : RequestParams)
    (hsb : Response → Except JsErr BodyValue) (env : Env)
    (transport : Nat → AttemptOutcome) (n : Nat) (r : Response) (b : BodyValue)
    (ht : transport n = .response r) (h4 : ¬ r.statusCode < 400)
    (hin : (effectiveCodes cfg).contains r.statusCode = true)
    (hlt : n < cfg.maxAttempts)
    (hd : (effectiveResolver cfg env r n (effectiveCodes cfg)).getD 0 = -1)
    (hrb : resolveBody r (params.requestLabel.getD "N/A") false false = .ok b) :
    iterate cfg params hsb env transport n =
      .done (.ret { error := some (.http { body := b, headers := r.headers, statusCode := r.statusCode, requestLabel := params.requestLabel }) }) [.requestIssued n, .resolverConsulted n] := by
  have hnotcond : ¬ ((effectiveCodes cfg).contains r.statusCode = false ∨
      cfg.maxAttempts ≤ n) := by
    rintro (hc | hc)
    · rw [hin] at hc; cases hc
    · omega
  simp only [iterate, ht, if_neg h4, if_neg hnotcond, if_pos hd, hrb]

/-- Variant of the abort case where materializing the error body throws: the
error goes through the catch block after the resolver was consulted. -/
theorem iterate_abort_throw (cfg : RetryConfig) (params : RequestParams)
    (hsb : Response → Except JsErr BodyValue) (env : Env)
    (transport : Nat → AttemptOutcome) (n : Nat) (r : Response) (e : JsErr)
    (ht : transport n = .response r) (h4 : ¬ r.statusCode < 400)
    (hin : (effectiveCodes cfg).contains r.statusCode = true)
    (hlt : n < cfg.maxAttempts)
    (hd : (effectiveResolver cfg env r n (effectiveCodes cfg)).getD 0 = -1)
    (hrb : resolveBody r (params.requestLabel.getD "N/A") false false = .error e) :
    iterate cfg params hsb env transport n =
      (match catchClause cfg params n e with
        | some out => .done out [.requestIssued n, .resolverConsulted n]
        | none => .next [.requestIssued n, .resolverConsulted n]) := by
  have hnotcond : ¬ ((effectiveCodes cfg).contains r.statusCode = false ∨
      cfg.maxAttempts ≤ n) := by
    rintro (hc | hc)
    · rw [hin] at hc; cases hc
    · omega
  simp only [iterate, ht, if_neg h4, if_neg hnotcond, if_pos hd, hrb]

/-- Event block of an attempt that only issues the request. -/
theorem attemptBlock_one (n : Nat) : attemptBlock n [.requestIssued n] := by
  constructor
  · intro e he
    simp only [List.mem_singleton] at he
    subst he
    rfl
  · simp

/-- Event block of an attempt that issues the request and consults the
resolver. -/
theorem attemptBlock_two (n : Nat) :
    attemptBlock n [.requestIssued n, .resolverConsulted n] := by
  constructor
  · intro e he
    rcases List.mem_pair.mp he with h | h <;> (subst h; rfl)
  · simp [Event.before, Event.attempt, Event.phase]

/-- Event block of a retried attempt: request, resolver, dump and an optional
sleep, in that order. -/
theorem attemptBlock_full (n : Nat) (d : ℚ) :
    attemptBlock n ([.requestIssued n, .resolverConsulted n, .bodyDumped n] ++
      if 0 < d then [.slept n d] else []) := by
  constructor
  · intro e he
    rw [List.mem_append] at he
    rcases he with he | he
    · simp only [List.mem_cons, List.not_mem_nil, or_false] at he
      rcases he with h | h | h <;> (subst h; rfl)
    · split at he
      · simp only [List.mem_singleton] at he
        subst he
        rfl
      · simp at he
  · split <;>
      simp [List.pairwise_cons, Event.before, Event.attempt, Event.phase]

/-- Exhaustive analysis of one loop iteration: either it terminates the call,
with a non-fuel outcome whose returned Either (if any) is exclusive, or it
continues with the budget not yet exhausted; in both cases the events form an
ordered block of the current attempt. -/
theorem iterate_cases (cfg : RetryConfig) (params : RequestParams)
    (hsb : Response → Except JsErr BodyValue) (env : Env)
    (transport : Nat → AttemptOutcome) (n : Nat) :
    (∃ out evs, iterate cfg params hsb env transport n = .done out evs ∧
      out ≠ .outOfFuel ∧ (∀ v, out = .ret v → exclusiveEither v) ∧
      attemptBlock n evs) ∨
    (∃ evs, iterate cfg params hsb env transport n = .next evs ∧
      n < cfg.maxAttempts ∧ attemptBlock n evs) := by
  cases htr : transport n with
  | failure e =>
    rw [iterate_failure cfg params hsb env transport n e htr]
    cases hc : catchClause cfg params n e with
    | some out =>
      obtain ⟨h1, h2⟩ := catchClause_out_shape cfg params n e out hc
      exact Or.inl ⟨out, _, rfl, h1, h2, attemptBlock_one n⟩
    | none =>
      have hlt : n < cfg.maxAttempts := by
        have hni := (catchClause_eq_none_iff cfg params n e).mp hc
        exact Nat.lt_of_not_le fun hle => hni (Or.inl hle)
      exact Or.inr ⟨_, rfl, hlt, attemptBlock_one n⟩
  | response r =>
    by_cases h4 : r.statusCode < 400
    · cases hb : hsb r with
      | ok b =>
        rw [iterate_success cfg params hsb env transport n r b htr h4 hb]
        refine Or.inl ⟨_, _, rfl, by simp, fun v hv => ?_, attemptBlock_one n⟩
        rw [EngineReturn.ret.injEq] at hv
        subst hv
        exact Or.inl ⟨rfl, by simp⟩
      | error e =>
        rw [iterate_success_throw cfg params hsb env transport n r e htr h4 hb]
        cases hc : catchClause cfg params n e with
        | some out =>
          obtain ⟨h1, h2⟩ := catchClause_out_shape cfg params n e out hc
          exact Or.inl ⟨out, _, rfl, h1, h2, attemptBlock_one n⟩
        | none =>
          have hlt : n < cfg.maxAttempts := by
            have hni := (catchClause_eq_none_iff cfg params n e).mp hc
            exact Nat.lt_of_not_le fun hle => hni (Or.inl hle)
          exact Or.inr ⟨_, rfl, hlt, attemptBlock_one n⟩
    · by_cases hcond : (effectiveCodes cfg).contains r.statusCode = false ∨
          cfg.maxAttempts ≤ n
      · cases hrb : resolveBody r (params.requestLabel.getD "N/A") false false with
        | ok b =>
          rw [iterate_terminal_http cfg params hsb env transport n r b htr h4 hcond hrb]
          refine Or.inl ⟨_, _, rfl, by simp, fun v hv => ?_, attemptBlock_one n⟩
          rw [EngineReturn.ret.injEq] at hv
          subst hv
          exact Or.inr ⟨by simp, rfl⟩
        | error e =>
          rw [iterate_terminal_http_throw cfg params hsb env transport n r e htr h4
            hcond hrb]
          cases hc : catchClause cfg params n e with
          | some out =>
            obtain ⟨h1, h2⟩ := catchClause_out_shape cfg params n e out hc
            exact Or.inl ⟨out, _, rfl, h1, h2, attemptBlock_one n⟩
          | none =>
            have hlt : n < cfg.maxAttempts := by
              have hni := (catchClause_eq_none_iff cfg params n e).mp hc
              exact Nat.lt_of_not_le fun hle => hni (Or.inl hle)
            exact Or.inr ⟨_, rfl, hlt, attemptBlock_one n⟩
      · push_neg at hcond
        obtain ⟨hin, hlt⟩ := hcond
        simp only [ne_eq, Bool.not_eq_false] at hin
        by_cases hd : (effectiveResolver cfg env r n (effectiveCodes cfg)).getD 0 = -1
        · cases hrb : resolveBody r (params.requestLabel.getD "N/A") false false with
          | ok b =>
            rw [iterate_abort cfg params hsb env transport n r b htr h4 hin hlt hd hrb]
            refine Or.inl ⟨_, _, rfl, by simp, fun v hv => ?_, attemptBlock_two n⟩
            rw [EngineReturn.ret.injEq] at hv
            subst hv
            exact Or.inr ⟨by simp, rfl⟩
          | error e =>
            have hiter := iterate_failure cfg params hsb env transport n e
            rw [iterate_abort_throw cfg params hsb env transport n r e htr h4 hin hlt
              hd hrb]
            cases hc : catchClause cfg params n e with
            | some out =>
              obtain ⟨h1, h2⟩ := catchClause_out_shape cfg params n e out hc
              exact Or.inl ⟨out, _, rfl, h1, h2, attemptBlock_two n⟩
            | none =>
              have hlt2 : n < cfg.maxAttempts := hlt
              exact Or.inr ⟨_, rfl, hlt2, attemptBlock_two n⟩
        · rw [iterate_retryable cfg params hsb env transport n r htr h4 hin hlt hd]
          exact Or.inr ⟨_, rfl, hlt, attemptBlock_full n _⟩

/-- Unfolding of one loop step when the iteration terminates. -/
theorem sendLoop_succ_done (cfg : RetryConfig) (params : RequestParams)
    (hsb : Response → Except JsErr BodyValue) (env : Env)
    (transport : Nat → AttemptOutcome) (a fuel : Nat) (out : EngineReturn)
    (evs : List Event)
    (hit : iterate cfg params hsb env transport (a + 1) = .done out evs) :
    sendLoop cfg params hsb env transport a (fuel + 1) =
      { outcome := out, calls := 1, trace := evs } := by
  simp only [sendLoop, hit]

/-- Unfolding of one loop step when the iteration continues. -/
theorem sendLoop_succ_next (cfg : RetryConfig) (params : RequestParams)
    (hsb : Response → Except JsErr BodyValue) (env : Env)
    (transport : Nat → AttemptOutcome) (a fuel : Nat) (evs : List Event)
    (hit : iterate cfg params hsb env transport (a + 1) = .next evs) :
    sendLoop cfg params hsb env transport a (fuel + 1) =
      { outcome := (sendLoop cfg params hsb env transport (a + 1) fuel).outcome,
        calls := (sendLoop cfg params hsb env transport (a + 1) fuel).calls + 1,
        trace := evs ++ (sendLoop cfg params hsb env transport (a + 1) fuel).trace } := by
  simp only [sendLoop, hit]

/-- The transport is invoked at most once per fuel unit. -/
theorem sendLoop_calls_le (cfg : RetryConfig) (params : RequestParams)
    (hsb : Response → Except JsErr BodyValue) (env : Env)
    (transport : Nat → AttemptOutcome) :
    ∀ fuel a, (sendLoop cfg params hsb env transport a fuel).calls ≤ fuel := by
  intro fuel
  induction fuel with
  | zero => intro a; simp [sendLoop]
  | succ f ih =>
    intro a
    rcases iterate_cases cfg params hsb env transport (a + 1) with
      ⟨out, evs, hit, -, -, -⟩ | ⟨evs, hit, -, -⟩
    · rw [sendLoop_succ_done cfg params hsb env transport a f out evs hit]
      dsimp only
      omega
    · rw [sendLoop_succ_next cfg params hsb env transport a f evs hit]
      dsimp only
      have := ih (a + 1)
      omega

/-- Any Either value the loop returns is exclusive. -/
theorem sendLoop_ret_exclusive (cfg : RetryConfig) (params : RequestParams)
    (hsb : Response → Except JsErr BodyValue) (env : Env)
    (transport : Nat → AttemptOutcome) :
    ∀ fuel a v, (sendLoop cfg params hsb env transport a fuel).outcome = .ret v →
      exclusiveEither v := by
  intro fuel
  induction fuel with
  | zero =>
    intro a v h
    simp only [sendLoop] at h
    cases h
  | succ f ih =>
    intro a v h
    rcases iterate_cases cfg params hsb env transport (a + 1) with
      ⟨out, evs, hit, -, hexc, -⟩ | ⟨evs, hit, -, -⟩
    · rw [sendLoop_succ_done cfg params hsb env transport a f out evs hit] at h
      exact hexc v h
    · rw [sendLoop_succ_next cfg params hsb env transport a f evs hit] at h
      exact ih (a + 1) v h

/-- With fuel covering the remaining budget, the loop never runs out of fuel:
the embedding with fuel maxAttempts is faithful to the unbounded while loop. -/
theorem sendLoop_outcome_ne_outOfFuel (cfg : RetryConfig) (params : RequestParams)
    (hsb : Response → Except JsErr BodyValue) (env : Env)
    (transport : Nat → AttemptOutcome) :
    ∀ fuel a, cfg.maxAttempts ≤ a + fuel → 1 ≤ fuel →
      (sendLoop cfg params hsb env transport a fuel).outcome ≠ .outOfFuel := by
  intro fuel
  induction fuel with
  | zero => intro a _ h1; omega
  | succ f ih =>
    intro a hle _
    rcases iterate_cases cfg params hsb env transport (a + 1) with
      ⟨out, evs, hit, hne, -, -⟩ | ⟨evs, hit, hlt, -⟩
    · rw [sendLoop_succ_done cfg params hsb env transport a f out evs hit]
      exact hne
    · rw [sendLoop_succ_next cfg params hsb env transport a f evs hit]
      exact ih (a + 1) (by omega) (by omega)

/-- Every event of a loop run belongs to an attempt after the starting
counter. -/
theorem sendLoop_trace_attempt_gt (cfg : RetryConfig) (params : RequestParams)
    (hsb : Response → Except JsErr BodyValue) (env : Env)
    (transport : Nat → AttemptOutcome) :
    ∀ fuel a e, e ∈ (sendLoop cfg params hsb env transport a fuel).trace →
      a < Event.attempt e := by
  intro fuel
  induction fuel with
  | zero => intro a e he; simp [sendLoop] at he
  | succ f ih =>
    intro a e he
    rcases iterate_cases cfg params hsb env transport (a + 1) with
      ⟨out, evs, hit, -, -, hblk⟩ | ⟨evs, hit, -, hblk⟩
    · rw [sendLoop_succ_done cfg params hsb env transport a f out evs hit] at he
      dsimp only at he
      have := hblk.1 e he
      omega
    · rw [sendLoop_succ_next cfg params hsb env transport a f evs hit] at he
      dsimp only at he
      rw [List.mem_append] at he
      rcases he with he | he
      · have := hblk.1 e he
        omega
      · have := ih (a + 1) e he
        omega

/-- The event trace of a loop run is strictly ordered: by attempt number, and
inside one attempt by the request / resolver / dump / sleep phases. -/
theorem sendLoop_trace_pairwise (cfg : RetryConfig) (params : RequestParams)
    (hsb : Response → Except JsErr BodyValue) (env : Env)
    (transport : Nat → AttemptOutcome) :
    ∀ fuel a, (sendLoop cfg params hsb env transport a fuel).trace.Pairwise
      Event.before := by
  intro fuel
  induction fuel with
  | zero => intro a; simp [sendLoop]
  | succ f ih =>
    intro a
    rcases iterate_cases cfg params hsb env transport (a + 1) with
      ⟨out, evs, hit, -, -, hblk⟩ | ⟨evs, hit, -, hblk⟩
    · rw [sendLoop_succ_done cfg params hsb env transport a f out evs hit]
      exact hblk.2
    · rw [sendLoop_succ_next cfg params hsb env transport a f evs hit]
      dsimp only
      rw [List.pairwise_append]
      refine ⟨hblk.2, ih (a + 1), fun e he e2 he2 => ?_⟩
      have h1 := hblk.1 e he
      have h2 := sendLoop_trace_attempt_gt cfg params hsb env transport f (a + 1) e2 he2
      exact Or.inl (by omega)

/-- A retryable-but-not-exhausted attempt always continues the loop. -/
theorem iterate_next_of_retryable (cfg : RetryConfig) (params : RequestParams)
    (hsb : Response → Except JsErr BodyValue) (env : Env)
    (transport : Nat → AttemptOutcome) (n : Nat)
    (hlt : n < cfg.maxAttempts) (hr : retryableAt cfg env n (transport n)) :
    ∃ evs, iterate cfg params hsb env transport n = .next evs := by
  cases htr : transport n with
  | failure e =>
    rw [iterate_failure cfg params hsb env transport n e htr]
    have hc : catchClause cfg params n e = none := by
      rw [catchClause_eq_none_iff]
      rintro (hle | hg)
      · omega
      · rw [htr] at hr
        simp only [retryableAt] at hr
        exact hr hg
    rw [hc]
    exact ⟨_, rfl⟩
  | response r =>
    rw [htr] at hr
    simp only [retryableAt] at hr
    obtain ⟨h400, hin, hd⟩ := hr
    exact ⟨_, iterate_retryable cfg params hsb env transport n r htr
      (Nat.not_lt.mpr h400) hin hlt hd⟩

/-- When every attempt before the budget boundary is retryable, the loop
consumes all its fuel, one transport invocation per unit. -/
theorem sendLoop_calls_eq (cfg : RetryConfig) (params : RequestParams)
    (hsb : Response → Except JsErr BodyValue) (env : Env)
    (transport : Nat → AttemptOutcome) :
    ∀ fuel a, a + fuel = cfg.maxAttempts → 1 ≤ fuel →
      (∀ i, a < i → i < cfg.maxAttempts → retryableAt cfg env i (transport i)) →
      (sendLoop cfg params hsb env transport a fuel).calls = fuel := by
  intro fuel
  induction fuel with
  | zero => intro a _ h1; omega
  | succ f ih =>
    intro a hfa _ hall
    cases Nat.eq_zero_or_pos f with
    | inl hf0 =>
      subst hf0
      have hn : cfg.maxAttempts ≤ a + 1 := by omega
      rcases iterate_cases cfg params hsb env transport (a + 1) with
        ⟨out, evs, hit, -, -, -⟩ | ⟨evs, hit, hlt, -⟩
      · rw [sendLoop_succ_done cfg params hsb env transport a 0 out evs hit]
      · omega
    | inr hfpos =>
      have hlt : a + 1 < cfg.maxAttempts := by omega
      obtain ⟨evs, hit⟩ := iterate_next_of_retryable cfg params hsb env transport
        (a + 1) hlt (hall (a + 1) (by omega) hlt)
      rw [sendLoop_succ_next cfg params hsb env transport a f evs hit]
      dsimp only
      rw [ih (a + 1) (by omega) (by omega) (fun i hi hilt => hall i (by omega) hilt)]

/-- Evaluation of the two-attempt scenario: retry on the 500, sleep 100ms
(backoff 100 plus zero jitter), succeed on the 200. -/
theorem run0_eval :
    sendWithRetry cfg0 {} env0 transport0 =
    { outcome := .ret { result := some okResult },
      calls := 2,
      trace := [.requestIssued 1, .resolverConsulted 1, .bodyDumped 1,
        .slept 1 100, .requestIssued 2] } := by
  simp +decide only [sendWithRetry, sendWithRetryInternal, sendLoop, iterate,
    cfg0, transport0, env0, effectiveCodes, effectiveResolver, defaultDelayResolverFn,
    createDefaultRetryResolver, DefaultRetryResolver.make, isRetryableStatusCode,
    strTruthy, catchClause, resolveBody, okResult, successBodyHandler,
    DefaultRetryResolver.calculateBackoffDelay, Option.getD]
  norm_num

/-- C5: for every attemptNumber n >= 1, the default resolver's computed delay
equals min(baseDelay * 2^(n-1) + jitter, maxDelay) in exponential mode and
min(baseDelay * n + jitter, maxDelay) in linear mode, where jitter is 0 when
maxJitter = 0 and otherwise lies in [0, maxJitter); with baseDelay=100 and
maxJitter=0 the linear delays for n=1..4 are exactly 100, 200, 300, 400, and
the clamp to maxDelay is applied after jitter so the result never exceeds
maxDelay. -/
theorem backoff_computation (r : DefaultRetryResolver) (rand : ℚ) (n : Int)
    (h0 : 0 ≤ rand) (h1 : rand < 1) (hmj : 0 ≤ r.maxJitter) (_hn : 1 ≤ n) :
    (∃ jitter,
      (r.maxJitter = 0 → jitter = 0) ∧
      (r.maxJitter ≠ 0 → 0 ≤ jitter ∧ jitter < r.maxJitter) ∧
      r.calculateBackoffDelay rand n =
        min ((if r.exponentialBackoff then r.baseDelay * (2 : ℚ) ^ (n - 1)
          else r.baseDelay * (n : ℚ)) + jitter) r.maxDelay) ∧
    r.calculateBackoffDelay rand n ≤ r.maxDelay ∧
    (r = DefaultRetryResolver.make { baseDelay := some 100, maxJitter := some 0, exponentialBackoff := some false } →
      (r.calculateBackoffDelay rand 1 = 100 ∧ r.calculateBackoffDelay rand 2 = 200 ∧
       r.calculateBackoffDelay rand 3 = 300 ∧ r.calculateBackoffDelay rand 4 = 400)) := by
  refine ⟨⟨if 0 < r.maxJitter then rand * r.maxJitter else 0, ?_, ?_, ?_⟩, ?_, ?_⟩
  · intro hz
    simp [hz]
  · intro hnz
    have hpos : 0 < r.maxJitter := lt_of_le_of_ne hmj (Ne.symm hnz)
    rw [if_pos hpos]
    constructor
    · exact mul_nonneg h0 hmj
    · calc rand * r.maxJitter < 1 * r.maxJitter := mul_lt_mul_of_pos_right h1 hpos
        _ = r.maxJitter := one_mul _
  · unfold DefaultRetryResolver.calculateBackoffDelay
    by_cases hpos : 0 < r.maxJitter
    · simp only [gt_iff_lt, if_pos hpos]
    · simp only [gt_iff_lt, if_neg hpos, add_zero]
  · unfold DefaultRetryResolver.calculateBackoffDelay
    exact min_le_right _ _
  · intro hr
    subst hr
    refine ⟨?_, ?_, ?_, ?_⟩ <;>
      norm_num [DefaultRetryResolver.make, DefaultRetryResolver.calculateBackoffDelay]

/-- Witness for C5 at the default resolver configuration, rand = 1/2, n = 3. -/
theorem backoff_computation_witness :
    (DefaultRetryResolver.make {}).calculateBackoffDelay (1/2) 3 ≤
      (DefaultRetryResolver.make {}).maxDelay :=
  (backoff_computation (DefaultRetryResolver.make {}) (1/2) 3 (by norm_num)
    (by norm_num) (by norm_num [DefaultRetryResolver.make]) (by norm_num)).2.1

/-- C9: the default resolver's backoff computation accepts attemptNumber = 0,
and in exponential mode with maxJitter = 0 and maxDelay >= baseDelay it
produces exactly baseDelay / 2. -/
theorem attempt_zero_backoff (r : DefaultRetryResolver) (rand : ℚ)
    (hexp : r.exponentialBackoff = true) (hmj : r.maxJitter = 0)
    (hb0 : 0 ≤ r.baseDelay) (hbm : r.baseDelay ≤ r.maxDelay) :
    r.calculateBackoffDelay rand 0 = r.baseDelay / 2 := by
  unfold DefaultRetryResolver.calculateBackoffDelay
  rw [hexp, hmj]
  simp only [if_true, gt_iff_lt, lt_irrefl, if_false]
  have h2 : (2 : ℚ) ^ ((0 : Int) - 1) = 1 / 2 := by norm_num
  rw [h2]
  rw [min_eq_left]
  · ring
  · calc r.baseDelay * (1 / 2) ≤ r.baseDelay := by linarith
      _ ≤ r.maxDelay := hbm

/-- Witness for C9 at maxJitter = 0 and otherwise default configuration
(baseDelay 100, maxDelay 60000). -/
theorem attempt_zero_backoff_witness :
    (DefaultRetryResolver.make { maxJitter := some 0 }).calculateBackoffDelay 0 0 =
      (DefaultRetryResolver.make { maxJitter := some 0 }).baseDelay / 2 :=
  attempt_zero_backoff (DefaultRetryResolver.make { maxJitter := some 0 }) 0
    (by norm_num [DefaultRetryResolver.make]) (by norm_num [DefaultRetryResolver.make])
    (by norm_num [DefaultRetryResolver.make]) (by norm_num [DefaultRetryResolver.make])

/-- C7 (amended): parseRetryAfterHeader returns seconds*1000 on all-digits
input; on a date-parsing input it returns the instant minus now when
nonnegative and a date-in-the-past failure otherwise; any other NON-EMPTY
input fails with the unknown-format reason (the empty string fails with the
no-header reason instead); and no returned delay is negative. -/
theorem parse_retry_after_contract (pd : String → Option Int) (now : Int)
    (s : String) :
    (isDigitsOnly s = true →
      parseRetryAfterHeader pd now s = { result := some ((digitsVal s : ℚ) * 1000) }) ∧
    (s ≠ "" → isDigitsOnly s = false → ∀ t, pd s = some t →
      (0 ≤ t - now →
        parseRetryAfterHeader pd now s = { result := some (((t - now : Int) : ℚ)) }) ∧
      (t - now < 0 →
        parseRetryAfterHeader pd now s = { error := some "Retry-After date is in the past" })) ∧
    (s ≠ "" → isDigitsOnly s = false → pd s = none →
      parseRetryAfterHeader pd now s = { error := some "Unknown Retry-After format" }) ∧
    (∀ d, (parseRetryAfterHeader pd now s).result = some d → 0 ≤ d) := by
  refine ⟨?_, ?_, ?_, ?_⟩
  · intro hdig
    have hne : ¬ s = "" := by
      intro h
      subst h
      cases hdig
    unfold parseRetryAfterHeader
    rw [if_neg hne, if_pos hdig, if_neg (by omega)]
  · intro hne hdig t ht
    constructor
    · intro hcmp
      unfold parseRetryAfterHeader
      rw [if_neg hne, if_neg (by simp [hdig]), ht]
      dsimp only
      rw [if_neg (by omega)]
    · intro hcmp
      unfold parseRetryAfterHeader
      rw [if_neg hne, if_neg (by simp [hdig]), ht]
      dsimp only
      rw [if_pos hcmp]
  · intro hne hdig hpd
    unfold parseRetryAfterHeader
    rw [if_neg hne, if_neg (by simp [hdig]), hpd]
  · intro d hd
    unfold parseRetryAfterHeader at hd
    dsimp only at hd
    split at hd
    · simp at hd
    · split at hd
      · split at hd
        · simp at hd
        · simp at hd
          rw [← hd]
          positivity
      · split at hd
        · rename_i t _
          split at hd
          · simp at hd
          · rename_i hnotneg
            simp at hd
            rw [← hd]
            have h0 : (0 : Int) ≤ t - now := by omega
            exact_mod_cast h0
        · simp at hd

/-- Witness for C7 applied to the all-digits input 120. -/
theorem parse_retry_after_witness :
    parseRetryAfterHeader (fun _ => none) 0 "120" =
      { result := some ((digitsVal "120" : ℚ) * 1000) } :=
  (parse_retry_after_contract (fun _ => none) 0 "120").1 (by decide)

/-- Counterexample to C7 as stated: the empty string is neither all digits nor
a parseable date, yet the parser fails with the no-header reason rather than
the unknown-format reason. -/
theorem parse_retry_after_counterexample :
    isDigitsOnly "" = false ∧
    (fun (_ : String) => (none : Option Int)) "" = none ∧
    parseRetryAfterHeader (fun _ => none) 0 "" ≠
      { error := some "Unknown Retry-After format" } ∧
    parseRetryAfterHeader (fun _ => none) 0 "" =
      { error := some "No Retry-After header provided" } :=
  ⟨by decide, rfl, by decide, by decide⟩

/-- C4 (amended): for a 429 or 503 response carrying a retry-after header,
with respectRetryAfter enabled AND the status code included in the retryable
set given to the resolver, createDefaultRetryResolver returns exactly the
parsed header delay (independent of the attempt number) when it is within
maxDelay, the abort sentinel -1 when it exceeds maxDelay, and the computed
backoff delay when the header fails to parse. -/
theorem retry_after_precedence (options : DefaultRetryResolverOptions)
    (pd : String → Option Int) (now : Int) (rand : ℚ) (r : Response) (n : Int)
    (codes : List Nat)
    (hst : r.statusCode = 429 ∨ r.statusCode = 503)
    (hra : (DefaultRetryResolver.make options).respectRetryAfter = true)
    (hhdr : strTruthy r.headers.retryAfter = true)
    (hin : codes.contains r.statusCode = true) :
    (∀ d, (parseRetryAfterHeader pd now (r.headers.retryAfter.getD "")).result = some d →
      (d ≤ (DefaultRetryResolver.make options).maxDelay →
        createDefaultRetryResolver options pd now rand r n codes = some d) ∧
      ((DefaultRetryResolver.make options).maxDelay < d →
        createDefaultRetryResolver options pd now rand r n codes = some (-1))) ∧
    ((parseRetryAfterHeader pd now (r.headers.retryAfter.getD "")).result = none →
      createDefaultRetryResolver options pd now rand r n codes =
        some ((DefaultRetryResolver.make options).calculateBackoffDelay rand n)) := by
  have hretry : isRetryableStatusCode r.statusCode codes = true := hin
  have hsrra : ((DefaultRetryResolver.make options).respectRetryAfter
      && (r.statusCode == 429 || r.statusCode == 503)
      && strTruthy r.headers.retryAfter) = true := by
    rw [hra, hhdr]
    rcases hst with h | h <;> rw [h] <;> rfl
  constructor
  · intro d hd
    constructor
    · intro hle
      have hng : ¬ d > (DefaultRetryResolver.make options).maxDelay := not_lt.mpr hle
      simp [createDefaultRetryResolver, hretry, hsrra, hd, hng]
    · intro hgt
      simp [createDefaultRetryResolver, hretry, hsrra, hd, hgt]
  · intro hd
    simp [createDefaultRetryResolver, hretry, hsrra, hd]

/-- Witness for C4: a 429 with Retry-After 30 and the default options, with
429 retryable, resolves to exactly 30000ms at attempt number 1. -/
theorem retry_after_precedence_witness :
    createDefaultRetryResolver {} (fun _ => none) 0 0 resp429hdr 1 [429] =
      some 30000 := by
  have h := (retry_after_precedence {} (fun _ => none) 0 0 resp429hdr 1 [429]
    (Or.inl rfl) rfl (by decide) (by decide)).1 30000
  have hparse : (parseRetryAfterHeader (fun _ => none) 0
      (resp429hdr.headers.retryAfter.getD "")).result = some 30000 := by
    simp +decide only [parseRetryAfterHeader, isDigitsOnly, resp429hdr,
      show digitsVal "30" = 30 from by decide]
    norm_num [show digitsVal "30" = 30 from by decide]
  have hle : (30000 : ℚ) ≤ (DefaultRetryResolver.make {}).maxDelay := by
    norm_num [DefaultRetryResolver.make]
  exact (h hparse).1 hle

/-- Counterexample to C4 as stated: a 429 response with Retry-After 30,
respectRetryAfter enabled and the parsed delay 30000 within maxDelay, but with
a retryable set not containing 429 - the resolver returns -1 instead of the
parsed delay, so the claim needs the retryable-set hypothesis. -/
theorem retry_after_precedence_counterexample :
    (DefaultRetryResolver.make {}).respectRetryAfter = true ∧
    resp429hdr.statusCode = 429 ∧
    strTruthy resp429hdr.headers.retryAfter = true ∧
    (parseRetryAfterHeader (fun _ => none) 0
      (resp429hdr.headers.retryAfter.getD "")).result = some 30000 ∧
    (30000 : ℚ) ≤ (DefaultRetryResolver.make {}).maxDelay ∧
    createDefaultRetryResolver {} (fun _ => none) 0 0 resp429hdr 1 [] =
      some (-1) := by
  refine ⟨rfl, rfl, by decide, ?_, by norm_num [DefaultRetryResolver.make], ?_⟩
  · simp +decide only [parseRetryAfterHeader, isDigitsOnly, resp429hdr,
      show digitsVal "30" = 30 from by decide]
    norm_num [show digitsVal "30" = 30 from by decide]
  · simp +decide only [createDefaultRetryResolver, isRetryableStatusCode, resp429hdr]

/-- C2 (amended): on an attempt receiving a response, if statusCode < 400 and
the success body materializes without throwing, the engine returns the Success
arm on that attempt (even when the status is in statusCodesToRetry); if
statusCode >= 400 and (the status is not in statusCodesToRetry or the attempt
number has reached maxAttempts) and the error body materializes without
throwing, the engine returns the Failure arm carrying that body, the headers
and the status code; statusCodesToRetry defaults to
{408, 425, 429, 500, 502, 503, 504} when absent. -/
theorem per_attempt_classification (cfg : RetryConfig) (params : RequestParams)
    (hsb : Response → Except JsErr BodyValue) (env : Env)
    (transport : Nat → AttemptOutcome) (n : Nat) (r : Response)
    (ht : transport n = .response r) :
    (∀ b, r.statusCode < 400 → hsb r = .ok b →
      iterate cfg params hsb env transport n =
        .done (.ret { result := some { body := b, headers := r.headers, statusCode := r.statusCode } }) [.requestIssued n]) ∧
    (∀ b, 400 ≤ r.statusCode →
      ((effectiveCodes cfg).contains r.statusCode = false ∨ cfg.maxAttempts ≤ n) →
      resolveBody r (params.requestLabel.getD "N/A") false false = .ok b →
      iterate cfg params hsb env transport n =
        .done (.ret { error := some (.http { body := b, headers := r.headers, statusCode := r.statusCode, requestLabel := params.requestLabel }) }) [.requestIssued n]) ∧
    (cfg.statusCodesToRetry = none →
      effectiveCodes cfg = [408, 425, 429, 500, 502, 503, 504]) := by
  refine ⟨?_, ?_, ?_⟩
  · intro b h4 hb
    exact iterate_success cfg params hsb env transport n r b ht h4 hb
  · intro b h4 hcond hrb
    exact iterate_terminal_http cfg params hsb env transport n r b ht
      (Nat.not_lt.mpr h4) hcond hrb
  · intro hnone
    rw [effectiveCodes, hnone]
    rfl

/-- Witness for C2: attempt 2 of the two-attempt scenario receives the 200 and
returns the Success arm with the text body. -/
theorem per_attempt_classification_witness :
    iterate cfg0 {} (successBodyHandler {}) env0 transport0 2 =
      .done (.ret { result := some { body := .text "ok", headers := {}, statusCode := 200 } }) [.requestIssued 2] :=
  (per_attempt_classification cfg0 {} (successBodyHandler {}) env0 transport0 2
    { statusCode := 200, body := { text := "ok" } } rfl).1 (.text "ok")
    (by norm_num) rfl

/-- Counterexample to C2 as stated: a 200 response (statusCode < 400) whose
JSON body fails to parse under safeParseJson does not produce a Success return
on that attempt - the engine retries and finally rethrows the
UnprocessableResponseError, invoking the transport twice. -/
theorem per_attempt_classification_counterexample :
    transportBad 1 = .response resp200badjson ∧
    resp200badjson.statusCode < 400 ∧
    sendWithRetry cfgBad paramsSafeThrow env0 transportBad =
      { outcome := .thrown (.reraised unprocErr), calls := 2,
        trace := [.requestIssued 1, .requestIssued 2] } := by
  refine ⟨rfl, by decide, ?_⟩
  simp +decide only [sendWithRetry, sendWithRetryInternal, sendLoop, iterate,
    successBodyHandler, resolveBody, catchClause, effectiveCodes, truthy,
    strStartsWith, firstCharsMatch, transportBad, resp200badjson, paramsSafeThrow,
    unprocErr, cfgBad]

/-- C10: an UnprocessableResponseError raised while materializing the body of
a success response (statusCode < 400, JSON content type, unparsable body,
safeParseJson true) is caught by the transport-failure handler: below
maxAttempts the whole request is re-issued; once the budget is exhausted it is
rethrown as-is when throwOnInternalError is truthy, and returned as the error
arm when throwOnInternalError is false. -/
theorem unprocessable_retry (cfg : RetryConfig) (params : RequestParams)
    (env : Env) (transport : Nat → AttemptOutcome) (n : Nat) (r : Response)
    (ct : String)
    (ht : transport n = .response r) (h4 : r.statusCode < 400)
    (hsafe : params.safeParseJson = some true)
    (hblob : params.blobBody.getD false = false)
    (hct : r.headers.contentType = some ct)
    (hcj : strStartsWith ct "application/json" = true)
    (hbad : r.body.jsonOk = false) :
    (n < cfg.maxAttempts →
      iterate cfg params (successBodyHandler params) env transport n =
        .next [.requestIssued n]) ∧
    (cfg.maxAttempts ≤ n → params.throwOnInternalError = some true →
      iterate cfg params (successBodyHandler params) env transport n =
        .done (.thrown (.reraised { name := "UnprocessableResponseError", message := "Error while parsing HTTP JSON response", isUnprocessable := true, rawBody := some r.body.text, requestLabel := some (params.requestLabel.getD "N/A") })) [.requestIssued n]) ∧
    (cfg.maxAttempts ≤ n → params.throwOnInternalError = some false →
      iterate cfg params (successBodyHandler params) env transport n =
        .done (.ret { error := some (.internal { name := "UnprocessableResponseError", message := "Error while parsing HTTP JSON response", isUnprocessable := true, rawBody := some r.body.text, requestLabel := some (params.requestLabel.getD "N/A") }) }) [.requestIssued n]) := by
  have hu : successBodyHandler params r = .error
      { name := "UnprocessableResponseError",
        message := "Error while parsing HTTP JSON response",
        isUnprocessable := true, rawBody := some r.body.text,
        requestLabel := some (params.requestLabel.getD "N/A") } := by
    simp [successBodyHandler, resolveBody, hblob, hct, hcj, hsafe, hbad]
  refine ⟨?_, ?_, ?_⟩
  · intro hlt
    rw [iterate_success_throw cfg params (successBodyHandler params) env transport
      n r { name := "UnprocessableResponseError", message := "Error while parsing HTTP JSON response", isUnprocessable := true, rawBody := some r.body.text, requestLabel := some (params.requestLabel.getD "N/A") } ht h4 hu]
    have hc : catchClause cfg params n { name := "UnprocessableResponseError", message := "Error while parsing HTTP JSON response", isUnprocessable := true, rawBody := some r.body.text, requestLabel := some (params.requestLabel.getD "N/A") } = none := by
      rw [catchClause_eq_none_iff]
      rintro (hle | ⟨-, hg⟩)
      · omega
      · cases hg
    rw [hc]
  · intro hge hthrow
    rw [iterate_success_throw cfg params (successBodyHandler params) env transport
      n r { name := "UnprocessableResponseError", message := "Error while parsing HTTP JSON response", isUnprocessable := true, rawBody := some r.body.text, requestLabel := some (params.requestLabel.getD "N/A") } ht h4 hu]
    have hc : catchClause cfg params n { name := "UnprocessableResponseError", message := "Error while parsing HTTP JSON response", isUnprocessable := true, rawBody := some r.body.text, requestLabel := some (params.requestLabel.getD "N/A") } =
        some (.thrown (.reraised { name := "UnprocessableResponseError", message := "Error while parsing HTTP JSON response", isUnprocessable := true, rawBody := some r.body.text, requestLabel := some (params.requestLabel.getD "N/A") })) := by
      unfold catchClause
      rw [if_pos (Or.inl hge), hthrow]
      rw [if_neg (by simp [truthy])]
      rw [if_pos rfl]
    rw [hc]
  · intro hge hret
    rw [iterate_success_throw cfg params (successBodyHandler params) env transport
      n r { name := "UnprocessableResponseError", message := "Error while parsing HTTP JSON response", isUnprocessable := true, rawBody := some r.body.text, requestLabel := some (params.requestLabel.getD "N/A") } ht h4 hu]
    have hc : catchClause cfg params n { name := "UnprocessableResponseError", message := "Error while parsing HTTP JSON response", isUnprocessable := true, rawBody := some r.body.text, requestLabel := some (params.requestLabel.getD "N/A") } =
        some (.ret { error := some (.internal { name := "UnprocessableResponseError", message := "Error while parsing HTTP JSON response", isUnprocessable := true, rawBody := some r.body.text, requestLabel := some (params.requestLabel.getD "N/A") }) }) := by
      unfold catchClause
      rw [if_pos (Or.inl hge), hret]
      rw [if_pos (by simp [truthy])]
      rw [if_neg (by simp)]
    rw [hc]

/-- Witness for C10: with the unparsable-JSON 200 response and budget 2, the
first attempt continues the loop (the request is re-issued). -/
theorem unprocessable_retry_witness :
    iterate cfgBad paramsSafeThrow (successBodyHandler paramsSafeThrow) env0
      transportBad 1 = .next [.requestIssued 1] :=
  (unprocessable_retry cfgBad paramsSafeThrow env0 transportBad 1 resp200badjson
    "application/json" rfl (by decide) rfl rfl rfl (by decide) rfl).1
    (by norm_num [cfgBad])

/-- C6 (amended): a transport failure is terminal exactly when the budget is
exhausted or retryOnTimeout is off and the error is a timeout; otherwise the
request is re-issued immediately, with no resolver consultation and no delay;
a terminal transport failure is thrown as the typed request error (with cause,
message and label) when throwOnInternalError is true, and is returned as the
error arm, tagged with the label and the internal-error marker, when
throwOnInternalError is false or unset. -/
theorem transport_failure_policy (cfg : RetryConfig) (params : RequestParams)
    (hsb : Response → Except JsErr BodyValue) (env : Env)
    (transport : Nat → AttemptOutcome) (n : Nat) (e : JsErr)
    (ht : transport n = .failure e) :
    (¬ (cfg.maxAttempts ≤ n ∨
        (cfg.retryOnTimeout = false ∧ TIMEOUT_ERRORS.contains e.name = true)) →
      iterate cfg params hsb env transport n = .next [.requestIssued n]) ∧
    ((cfg.maxAttempts ≤ n ∨
        (cfg.retryOnTimeout = false ∧ TIMEOUT_ERRORS.contains e.name = true)) →
      ∃ out, iterate cfg params hsb env transport n = .done out [.requestIssued n]) ∧
    ((cfg.maxAttempts ≤ n ∨
        (cfg.retryOnTimeout = false ∧ TIMEOUT_ERRORS.contains e.name = true)) →
      params.throwOnInternalError = some true → e.isUnprocessable = false →
      iterate cfg params hsb env transport n =
        .done (.thrown (.undiciRetryRequestError e e.message params.requestLabel)) [.requestIssued n]) ∧
    ((cfg.maxAttempts ≤ n ∨
        (cfg.retryOnTimeout = false ∧ TIMEOUT_ERRORS.contains e.name = true)) →
      truthy params.throwOnInternalError = false → e.isUnprocessable = false →
      iterate cfg params hsb env transport n =
        .done (.ret { error := some (.internal { e with requestLabel := params.requestLabel, isInternalRequestError := true }) }) [.requestIssued n]) := by
  refine ⟨?_, ?_, ?_, ?_⟩
  · intro hterm
    rw [iterate_failure cfg params hsb env transport n e ht]
    rw [(catchClause_eq_none_iff cfg params n e).mpr hterm]
  · intro hterm
    rw [iterate_failure cfg params hsb env transport n e ht]
    obtain ⟨out, hc⟩ : ∃ out, catchClause cfg params n e = some out := by
      unfold catchClause
      rw [if_pos hterm]
      exact ⟨_, rfl⟩
    rw [hc]
    exact ⟨out, rfl⟩
  · intro hterm hthrow hnu
    rw [iterate_failure cfg params hsb env transport n e ht]
    have hc : catchClause cfg params n e =
        some (.thrown (.undiciRetryRequestError e e.message params.requestLabel)) := by
      unfold catchClause
      rw [if_pos hterm, hthrow]
      rw [if_neg (by simp [truthy])]
      rw [if_neg (by simp [hnu])]
    rw [hc]
  · intro hterm hret hnu
    rw [iterate_failure cfg params hsb env transport n e ht]
    have hc : catchClause cfg params n e =
        some (.ret { error := some (.internal { e with requestLabel := params.requestLabel, isInternalRequestError := true }) }) := by
      unfold catchClause
      rw [if_pos hterm, hret]
      rw [if_pos (by simp [truthy])]
      rw [if_pos (by simp [hnu])]
    rw [hc]

/-- Witness for C6: a socket failure with an exhausted budget and
throwOnInternalError true is thrown as the typed request error. -/
theorem transport_failure_policy_witness :
    iterate cfg1 paramsThrow (successBodyHandler paramsThrow) env0 transportErr 1 =
      .done (.thrown (.undiciRetryRequestError errSocket "" none)) [.requestIssued 1] :=
  (transport_failure_policy cfg1 paramsThrow (successBodyHandler paramsThrow) env0
    transportErr 1 errSocket rfl).2.2.1 (Or.inl (by norm_num [cfg1])) rfl rfl

/-- Counterexample to C6 as stated: with throwOnInternalError ABSENT (neither
true nor false), a terminal transport failure is returned as the error arm,
not thrown, so "thrown unless throwOnInternalError is false" fails. -/
theorem transport_failure_policy_counterexample :
    ({} : RequestParams).throwOnInternalError = none ∧
    sendWithRetryReturnStream cfg1 {} env0 transportErr =
      { outcome := .ret { error := some (.internal { errSocket with isInternalRequestError := true }) },
        calls := 1, trace := [.requestIssued 1] } := by
  refine ⟨rfl, ?_⟩
  simp +decide only [sendWithRetryReturnStream, sendWithRetryInternal, sendLoop,
    iterate, catchClause, truthy, effectiveCodes, transportErr, errSocket, cfg1]

/-- C3: every value returned (rather than thrown) by sendWithRetry or by
sendWithRetryReturnStream has exactly one of the error and result fields
populated. -/
theorem exclusive_result (cfg : RetryConfig) (params : RequestParams) (env : Env)
    (transport : Nat → AttemptOutcome) (v : EitherVal ErrArm RequestResult) :
    ((sendWithRetry cfg params env transport).outcome = .ret v → exclusiveEither v) ∧
    ((sendWithRetryReturnStream cfg params env transport).outcome = .ret v →
      exclusiveEither v) := by
  constructor <;> intro h <;>
    exact sendLoop_ret_exclusive cfg params _ env transport cfg.maxAttempts 0 v h

/-- Witness for C3: the Either returned by the two-attempt scenario has only
its result field populated. -/
theorem exclusive_result_witness :
    exclusiveEither ({ result := some okResult } : EitherVal ErrArm RequestResult) :=
  (exclusive_result cfg0 {} env0 transport0 { result := some okResult }).1
    (congrArg RunResult.outcome run0_eval)

/-- C1 (amended): for maxAttempts = N >= 1 the transport is invoked at most N
times per call, and exactly N times when every one of the first N-1 attempts
yields a retryable outcome - an ERROR response (status >= 400) whose status is
in statusCodesToRetry with the effective resolver not returning -1, or a
transport failure not gated by retryOnTimeout. -/
theorem budget_invariant (cfg : RetryConfig) (params : RequestParams)
    (hsb : Response → Except JsErr BodyValue) (env : Env)
    (transport : Nat → AttemptOutcome) (hN : 1 ≤ cfg.maxAttempts) :
    (sendWithRetryInternal cfg params hsb env transport).calls ≤ cfg.maxAttempts ∧
    ((∀ i, 1 ≤ i → i < cfg.maxAttempts → retryableAt cfg env i (transport i)) →
      (sendWithRetryInternal cfg params hsb env transport).calls = cfg.maxAttempts) := by
  constructor
  · exact sendLoop_calls_le cfg params hsb env transport cfg.maxAttempts 0
  · intro hall
    exact sendLoop_calls_eq cfg params hsb env transport cfg.maxAttempts 0
      (by omega) hN (fun i hi hilt => hall i hi hilt)

/-- Attempt 1 of the two-attempt scenario is retryable: 500 is an error status
in the retry set and the default resolver computes 100, not -1. -/
theorem retryable_cfg0_attempt1 : retryableAt cfg0 env0 1 (transport0 1) := by
  have ht : transport0 1 = .response { statusCode := 500, body := { text := "boom" } } := rfl
  rw [ht]
  simp only [retryableAt]
  refine ⟨by norm_num, by decide, ?_⟩
  have hval : (effectiveResolver cfg0 env0
      { statusCode := 500, body := { text := "boom" } } 1 (effectiveCodes cfg0)).getD 0
      = 100 := by
    simp +decide only [effectiveResolver, effectiveCodes, cfg0, env0,
      defaultDelayResolverFn, createDefaultRetryResolver, DefaultRetryResolver.make,
      isRetryableStatusCode, strTruthy, DefaultRetryResolver.calculateBackoffDelay,
      Option.getD]
    norm_num
  rw [hval]
  norm_num

/-- Witness for C1: the two-attempt scenario (retryable 500 then 200) invokes
the transport exactly maxAttempts = 2 times. -/
theorem budget_invariant_witness :
    (sendWithRetryInternal cfg0 {} (successBodyHandler {}) env0 transport0).calls = 2 :=
  (budget_invariant cfg0 {} (successBodyHandler {}) env0 transport0
    (by norm_num [cfg0])).2
    (fun i hi hilt => by
      have h2 : cfg0.maxAttempts = 2 := rfl
      have hi1 : i = 1 := by omega
      subst hi1
      exact retryable_cfg0_attempt1)

/-- Counterexample to C1 as stated: with statusCodesToRetry = [200] and a 200
response, the attempt satisfies the claim's notion of retryable (status in the
retry set, resolver not -1), maxAttempts is 2, yet the transport is invoked
only once, because the success check runs first. -/
theorem budget_invariant_counterexample :
    claimedRetryableAt cfg200 env0 1 (transport200 1) ∧
    cfg200.maxAttempts = 2 ∧
    (sendWithRetryInternal cfg200 {} (successBodyHandler {}) env0 transport200).calls
      = 1 := by
  refine ⟨?_, rfl, ?_⟩
  · have ht : transport200 1 = .response { statusCode := 200, body := { text := "ok" } } := rfl
    rw [ht]
    simp only [claimedRetryableAt]
    refine ⟨by decide, ?_⟩
    have hval : (effectiveResolver cfg200 env0
        { statusCode := 200, body := { text := "ok" } } 1 (effectiveCodes cfg200)).getD 0
        = 100 := by
      simp +decide only [effectiveResolver, effectiveCodes, cfg200, env0,
        defaultDelayResolverFn, createDefaultRetryResolver, DefaultRetryResolver.make,
        isRetryableStatusCode, strTruthy, DefaultRetryResolver.calculateBackoffDelay,
        Option.getD]
      norm_num
    rw [hval]
    norm_num
  · simp +decide only [sendWithRetryInternal, sendLoop, iterate, successBodyHandler,
      resolveBody, effectiveCodes, cfg200, transport200]

/-- In a trace strictly sorted by the attempt/phase order, the index of an
earlier-ordered event is smaller. -/
theorem pairwise_before_index {t : List Event} (hp : t.Pairwise Event.before)
    {i j : Nat} {e f : Event} (hi : t.get? i = some e) (hj : t.get? j = some f)
    (hb : Event.before e f) : i < j := by
  obtain ⟨hli, hei⟩ := List.get?_eq_some.mp hi
  obtain ⟨hlj, hej⟩ := List.get?_eq_some.mp hj
  rcases Nat.lt_trichotomy i j with h | h | h
  · exact h
  · exfalso
    subst h
    rw [hei] at hej
    subst hej
    rcases hb with h1 | ⟨_, h2⟩
    · omega
    · omega
  · exfalso
    have hrev := List.pairwise_iff_get.mp hp ⟨j, hlj⟩ ⟨i, hli⟩ h
    rw [hei, hej] at hrev
    rcases hb with h1 | ⟨he, h2⟩ <;> rcases hrev with h3 | ⟨he2, h4⟩ <;> omega

/-- C8: in every run, a retried attempt emits its events in the order request,
resolver, dump, optional sleep; in the global trace the body dump of attempt n
precedes the sleep of attempt n, and the sleep of attempt n precedes the
request issue of attempt n+1. -/
theorem drain_before_delay (cfg : RetryConfig) (params : RequestParams)
    (hsb : Response → Except JsErr BodyValue) (env : Env)
    (transport : Nat → AttemptOutcome) (n i j : Nat) (d : ℚ) (r : Response) :
    (((sendWithRetryInternal cfg params hsb env transport).trace.get? i =
        some (.bodyDumped n) →
      (sendWithRetryInternal cfg params hsb env transport).trace.get? j =
        some (.slept n d) → i < j) ∧
     ((sendWithRetryInternal cfg params hsb env transport).trace.get? i =
        some (.slept n d) →
      (sendWithRetryInternal cfg params hsb env transport).trace.get? j =
        some (.requestIssued (n + 1)) → i < j)) ∧
    (transport n = .response r → ¬ r.statusCode < 400 →
      (effectiveCodes cfg).contains r.statusCode = true → n < cfg.maxAttempts →
      (effectiveResolver cfg env r n (effectiveCodes cfg)).getD 0 ≠ -1 →
      iterate cfg params hsb env transport n =
        .next ([.requestIssued n, .resolverConsulted n, .bodyDumped n] ++
          if 0 < (effectiveResolver cfg env r n (effectiveCodes cfg)).getD 0 then
            [.slept n ((effectiveResolver cfg env r n (effectiveCodes cfg)).getD 0)]
          else [])) := by
  have hp : (sendWithRetryInternal cfg params hsb env transport).trace.Pairwise
      Event.before :=
    sendLoop_trace_pairwise cfg params hsb env transport cfg.maxAttempts 0
  refine ⟨⟨?_, ?_⟩, ?_⟩
  · intro hi hj
    exact pairwise_before_index hp hi hj (Or.inr ⟨rfl, by norm_num [Event.phase]⟩)
  · intro hi hj
    exact pairwise_before_index hp hi hj (Or.inl (by norm_num [Event.attempt]))
  · intro ht h4 hin hlt hd
    exact iterate_retryable cfg params hsb env transport n r ht h4 hin hlt hd

/-- Witness for C8 on the two-attempt scenario: the dump of attempt 1 sits at
index 2, before the sleep at index 3, which precedes the second request issue
at index 4. -/
theorem drain_before_delay_witness : (2 : Nat) < 3 ∧ (3 : Nat) < 4 := by
  have htr : (sendWithRetryInternal cfg0 {} (successBodyHandler {}) env0
      transport0).trace = [.requestIssued 1, .resolverConsulted 1, .bodyDumped 1,
        .slept 1 100, .requestIssued 2] :=
    congrArg RunResult.trace run0_eval
  constructor
  · exact (drain_before_delay cfg0 {} (successBodyHandler {}) env0 transport0 1 2 3
      100 { statusCode := 500, body := { text := "boom" } }).1.1
      (by rw [htr]; rfl) (by rw [htr]; rfl)
  · exact (drain_before_delay cfg0 {} (successBodyHandler {}) env0 transport0 1 3 4
      100 { statusCode := 500, body := { text := "boom" } }).1.2
      (by rw [htr]; rfl) (by rw [htr]; rfl)

end UndiciRetry
